import Mathlib

/-!
Verification development for the QtSsh `SshClient` session layer
(`src/qtssh/sshclient.cpp`).

The C++ class is shallowly embedded: the mutable fields of `SshClient`
become a `ClientState` record, each member function becomes a pure Lean
function from the old state (plus the results of the external libssh2 /
socket calls, collected in an `Oracle`) to the new state.  Machine `int`
results of libssh2 calls are modelled as `Int`; the only values the code
distinguishes are `LIBSSH2_ERROR_EAGAIN`, `0`, and other non-zero results,
captured by `LibRes`.  Qt signal emissions and socket side effects are
external and not part of the state.
-/

namespace QtSsh

/-- Result of a libssh2 call as the code distinguishes it:
`eagain` = `LIBSSH2_ERROR_EAGAIN`, `ok` = `0`, `fail` = any other
(negative) result. -/
inductive LibRes
  | eagain
  | ok
  | fail
  deriving Repr, DecidableEq

/-- `SshClient::SshState` (declared in sshclient.h, used throughout
sshclient.cpp). -/
inductive SshState
  | Unconnected
  | SocketConnection
  | WaitingSocketConnection
  | Initialize
  | HandShake
  | GetAuthenticationMethodes
  | Authentication
  | Ready
  | DisconnectingChannel
  | DisconnectingSession
  | FreeSession
  | Error
  deriving Repr, DecidableEq

/-- `SshKey::Type`: the host/user key types the code switches on in
`SshClient::addKnownHost`. -/
inductive SshKeyType
  | UnknownType
  | Rsa
  | Dss
  deriving Repr, DecidableEq

/-- `SshKey`: key type plus raw key bytes (the bytes are opaque here). -/
structure SshKey where
  type : SshKeyType
  key : String
  deriving Repr, DecidableEq

/-- The mutable fields of `SshClient` that the verified members touch.
`sessionNonNull` models `m_session != nullptr`, `knownHostsNonNull`
models `m_knownHosts != nullptr`; timers are modelled by whether they are
running. -/
structure ClientState where
  sshState : SshState
  authenticationMethodes : List String
  channels : List Nat
  hostname : String
  port : Nat
  username : String
  sessionNonNull : Bool
  knownHostsNonNull : Bool
  keepaliveActive : Bool
  connTimeoutActive : Bool
  lastProofOfLive : Int
  hostKeyCaptured : Bool
  deriving Repr, DecidableEq

/-- The state of a freshly constructed `SshClient` (all members default:
state `Unconnected`, empty lists, null handles, stopped timers). -/
def client0 : ClientState :=
  { sshState := SshState.Unconnected
    authenticationMethodes := []
    channels := []
    hostname := ""
    port := 0
    username := ""
    sessionNonNull := false
    knownHostsNonNull := false
    keepaliveActive := false
    connTimeoutActive := false
    lastProofOfLive := 0
    hostKeyCaptured := false }

/-- `SshClient::setSshState`: stores the new state (the C++ also emits
`sshStateChanged` when the value differs; signals are external to the
model, the stored field is the same either way). -/
def setSshState (s : ClientState) (st : SshState) : ClientState :=
  { s with sshState := st }

/-- `SshClient::connectToHost(user, host, port, methodes)` (sshclient.cpp
lines 163-179).  Returns the C++ `int` return value paired with the new
state.  Note the code returns `0` on both the rejected ("Allready
connected") path and the accepted path. -/
def connectToHost (s : ClientState) (user host : String) (port : Nat)
    (methodes : List String) : Int × ClientState :=
  if s.sshState ≠ SshState.Unconnected then
    (0, s)
  else
    (0, setSshState
      { s with authenticationMethodes := methodes
               hostname := host
               port := port
               username := user }
      SshState.SocketConnection)

/-- `SshClient::disconnectFromHost` (sshclient.cpp lines 193-210). -/
def disconnectFromHost (s : ClientState) : ClientState :=
  if s.sshState = SshState.Unconnected then s
  else if s.channels.length = 0 then
    setSshState s SshState.DisconnectingSession
  else
    setSshState s SshState.DisconnectingChannel

/-- `SshClient::registerChannel` (sshclient.cpp lines 317-321): appends
the channel to `m_channels`.  Channels are identified by an abstract
numeric identity. -/
def registerChannel (s : ClientState) (ch : Nat) : ClientState :=
  { s with channels := s.channels ++ [ch] }

/-- `SshClient::unregisterChannel` (sshclient.cpp lines 299-315):
`QList::removeOne` removes the first occurrence; if the state is
`DisconnectingChannel` and the list became empty, the keepalive timer is
stopped and the state moves to `DisconnectingSession` (plus an `sshEvent`
emission, external to the model). -/
def unregisterChannel (s : ClientState) (ch : Nat) : ClientState :=
  let s1 := { s with channels := s.channels.erase ch }
  if s1.sshState = SshState.DisconnectingChannel ∧ s1.channels = [] then
    setSshState { s1 with keepaliveActive := false } SshState.DisconnectingSession
  else s1

/-- `SshClient::saveKnownHosts` (sshclient.cpp lines 224-228): true
exactly when `libssh2_knownhost_writefile` returned `0`.  `libRes` is the
library call's result. -/
def saveKnownHosts (file : String) (libRes : Int) : Bool :=
  libRes == 0

/-- `SshClient::addKnownHost` (sshclient.cpp lines 235-252): an
`UnknownType` key is rejected before any library call; otherwise the
`int` result of `libssh2_knownhost_add` is returned converted to `bool`
(C++ semantics: non-zero becomes `true`). -/
def addKnownHost (hostname : String) (key : SshKey) (libRes : Int) : Bool :=
  match key.type with
  | SshKeyType.UnknownType => false
  | SshKeyType.Dss => libRes != 0
  | SshKeyType.Rsa => libRes != 0

/-- The channel-creation arbiter state inside `SshClient`: the QMutex
`channelCreationInProgress` plus the raw owner pointer
`currentLockerForChannelCreation` (`none` models `nullptr`; caller
identities are abstract naturals). -/
structure Arbiter where
  locked : Bool
  owner : Option Nat
  deriving Repr, DecidableEq

/-- Initial arbiter state: mutex unlocked, no owner recorded. -/
def arbiter0 : Arbiter := { locked := false, owner := none }

/-- `SshClient::takeChannelCreationMutex(identifier)` (sshclient.cpp
lines 101-110).  `QMutex::tryLock` fails iff the mutex is already
locked; when it fails and the stored owner differs from `identifier` the
call returns `false` and changes nothing; otherwise (the lock was free,
or the caller already owns it) the mutex is held and `identifier` is
recorded as owner. -/
def takeChannelCreationMutex (a : Arbiter) (identifier : Nat) : Bool × Arbiter :=
  if a.locked = true ∧ a.owner ≠ some identifier then
    (false, a)
  else
    (true, { locked := true, owner := some identifier })

/-- `SshClient::releaseChannelCreationMutex(identifier)` (sshclient.cpp
lines 112-123).  The second component is `true` when the
"Trying to release channel mutex but it doesn't host it" critical
warning was emitted (caller error, state untouched). -/
def releaseChannelCreationMutex (a : Arbiter) (identifier : Nat) : Arbiter × Bool :=
  if a.owner = some identifier then
    ({ locked := false, owner := none }, false)
  else
    (a, true)

/-- One arbiter call, for reasoning about call sequences. -/
inductive ArbOp
  | take (identifier : Nat)
  | release (identifier : Nat)
  deriving Repr, DecidableEq

/-- State reached after one arbiter call (the boolean result is
discarded). -/
def arbStep (a : Arbiter) (op : ArbOp) : Arbiter :=
  match op with
  | ArbOp.take i => (takeChannelCreationMutex a i).2
  | ArbOp.release i => (releaseChannelCreationMutex a i).1

/-- What `SshClient::_sendKeepAlive` does, observed through its effect. -/
inductive KeepAliveAction
  | skipNoSession
  | disconnectSendError
  | disconnectLost
  | reschedule (ms : Int)
  deriving Repr, DecidableEq

/-- `SshClient::_sendKeepAlive` (sshclient.cpp lines 259-282).
`interval` is the value `libssh2_keepalive_send` stores into its
out-parameter (the advertised keepalive interval in seconds), `sendErr`
models `ret == LIBSSH2_ERROR_SOCKET_SEND`, `now` is
`QDateTime::currentMSecsSinceEpoch()` and `lastProof` is
`m_lastProofOfLive`, both in milliseconds.  C++ `qint64` division
truncates toward zero, i.e. `Int.tdiv`; `MAX_LOST_KEEP_ALIVE` is 6. -/
def sendKeepAlive (sessionNonNull : Bool) (sendErr : Bool) (interval : Int)
    (now lastProof : Int) : KeepAliveAction :=
  if sessionNonNull = false then
    KeepAliveAction.skipNoSession
  else if sendErr then
    KeepAliveAction.disconnectSendError
  else if Int.tdiv (now - lastProof) 1000 > 6 * interval then
    KeepAliveAction.disconnectLost
  else
    KeepAliveAction.reschedule
      ((if interval - 1 < 2 then 2 else interval - 1) * 1000)

/-- The results that the external world (libssh2 and the socket) hands
to one pass of `SshClient::_ssh_processEvent`.  `authRes n` is the
result of the n-th authentication call made inside the `Authentication`
while-loop of this pass. -/
structure Oracle where
  sessionInitOk : Bool
  handshakeRes : LibRes
  fingerprintOk : Bool
  userauthList : Option (List String)
  userauthListLastErr : LibRes
  authRes : Nat → LibRes
  authenticated : Bool
  disconnectRes : LibRes
  socketConnected : Bool
  freeRes : LibRes
  now : Int

/-- Outcome of one pass of `_ssh_processEvent`.  `ub` marks the
execution reaching `QList::first()` on an empty list (undefined
behaviour in the C++); `diverge` marks the authentication while-loop
failing to terminate within the given fuel. -/
inductive StepResult
  | next (s : ClientState)
  | ub (s : ClientState)
  | diverge (s : ClientState)
  deriving Repr

/-- Outcome of the `while(m_authenticationMethodes.length() != 0)` loop
in the `Authentication` case (sshclient.cpp lines 497-555), carrying the
candidate list as left behind by the loop. -/
inductive AuthOutcome
  | suspend (l : List String)
  | passwordFailStop (l : List String)
  | ready (l : List String)
  | exhausted
  | emptyAccess
  | outOfFuel (l : List String)
  deriving Repr, DecidableEq

/-- The authentication while-loop (sshclient.cpp lines 497-555), fuelled.
One iteration: if the head is "publickey", run the publickey attempt
(EAGAIN returns from the function with the list as is; success sets
Ready and breaks; failure removes the head and falls through to the
password test, which re-reads `first()` on the possibly-empty list);
if the (possibly updated) head is "password", run the password attempt
(EAGAIN returns; failure removes the head and returns from the
function; success sets Ready and breaks).  A head matching neither
string is left in place and the loop repeats on the unchanged list.
`k` counts the engine calls already made in this pass. -/
def authLoop (o : Oracle) : Nat → List String → Nat → AuthOutcome
  | 0, l, _ => AuthOutcome.outOfFuel l
  | Nat.succ fuel, l, k =>
    match l with
    | [] => AuthOutcome.exhausted
    | m :: rest =>
      if m = "publickey" then
        match o.authRes k with
        | LibRes.eagain => AuthOutcome.suspend (m :: rest)
        | LibRes.ok => AuthOutcome.ready (m :: rest)
        | LibRes.fail =>
          match rest with
          | [] => AuthOutcome.emptyAccess
          | m2 :: rest2 =>
            if m2 = "password" then
              match o.authRes (k + 1) with
              | LibRes.eagain => AuthOutcome.suspend rest
              | LibRes.ok => AuthOutcome.ready rest
              | LibRes.fail => AuthOutcome.passwordFailStop rest2
            else authLoop o fuel rest (k + 1)
      else if m = "password" then
        match o.authRes k with
        | LibRes.eagain => AuthOutcome.suspend (m :: rest)
        | LibRes.ok => AuthOutcome.ready (m :: rest)
        | LibRes.fail => AuthOutcome.passwordFailStop rest
      else authLoop o fuel (m :: rest) k

/-- The `Ready` case of `_ssh_processEvent` (sshclient.cpp lines
575-580): refresh `m_lastProofOfLive`, emit `sshDataReceived`, return. -/
def stepReady (o : Oracle) (s : ClientState) : StepResult :=
  StepResult.next { s with lastProofOfLive := o.now }

/-- The `Authentication` case of `_ssh_processEvent` (sshclient.cpp
lines 495-573), entered with `s.sshState = Authentication`: run the
while-loop, then the `libssh2_userauth_authenticated` check; on success
stop the connection timer, arm the one-shot keepalive and fall through
into the `Ready` case, else the state becomes `Error`. -/
def stepAuthentication (o : Oracle) (fuel : Nat) (s : ClientState) : StepResult :=
  match authLoop o fuel s.authenticationMethodes 0 with
  | AuthOutcome.outOfFuel l =>
    StepResult.diverge { s with authenticationMethodes := l }
  | AuthOutcome.emptyAccess => StepResult.ub s
  | AuthOutcome.suspend l =>
    StepResult.next { s with authenticationMethodes := l }
  | AuthOutcome.passwordFailStop l =>
    StepResult.next { s with authenticationMethodes := l }
  | AuthOutcome.ready l =>
    let s1 := setSshState { s with authenticationMethodes := l } SshState.Ready
    if o.authenticated then
      stepReady o { s1 with connTimeoutActive := false, keepaliveActive := true }
    else
      StepResult.next (setSshState s1 SshState.Error)
  | AuthOutcome.exhausted =>
    let s1 := { s with authenticationMethodes := [] }
    if o.authenticated then
      stepReady o (setSshState
        { s1 with connTimeoutActive := false, keepaliveActive := true }
        SshState.Ready)
    else
      StepResult.next (setSshState s1 SshState.Error)

/-- The `GetAuthenticationMethodes` case (sshclient.cpp lines 468-493):
when no method list was supplied, `libssh2_userauth_list` either yields
the server's list, or a null result whose `libssh2_session_last_error`
is EAGAIN (return, nothing changed) or a real error (state `Error`,
socket disconnect); then the state is set to `Authentication` and the
pass falls through into that case. -/
def stepGetAuthenticationMethodes (o : Oracle) (fuel : Nat) (s : ClientState) :
    StepResult :=
  if s.authenticationMethodes.length = 0 then
    match o.userauthList with
    | none =>
      if o.userauthListLastErr = LibRes.eagain then StepResult.next s
      else StepResult.next (setSshState s SshState.Error)
    | some alist =>
      stepAuthentication o fuel
        (setSshState { s with authenticationMethodes := alist }
          SshState.Authentication)
  else
    stepAuthentication o fuel (setSshState s SshState.Authentication)

/-- The `HandShake` case (sshclient.cpp lines 422-466):
`libssh2_session_handshake` EAGAIN returns unchanged; other non-zero
results set `Error`; on success the host key fingerprint is captured
(a null fingerprint sets `Error`), the known-hosts store is consulted
(result unused by the code) and the pass falls through into
`GetAuthenticationMethodes`. -/
def stepHandShake (o : Oracle) (fuel : Nat) (s : ClientState) : StepResult :=
  match o.handshakeRes with
  | LibRes.eagain => StepResult.next s
  | LibRes.fail => StepResult.next (setSshState s SshState.Error)
  | LibRes.ok =>
    if o.fingerprintOk = false then
      StepResult.next (setSshState s SshState.Error)
    else
      stepGetAuthenticationMethodes o fuel
        (setSshState { s with hostKeyCaptured := true }
          SshState.GetAuthenticationMethodes)

/-- The `Initialize` case (sshclient.cpp lines 396-420): create the
engine handle (null sets `Error`), install the socket callbacks, set
non-blocking mode, init the known-hosts store and load the configured
file, then fall through into `HandShake`. -/
def stepInitialize (o : Oracle) (fuel : Nat) (s : ClientState) : StepResult :=
  if o.sessionInitOk = false then
    StepResult.next (setSshState s SshState.Error)
  else
    stepHandShake o fuel
      (setSshState { s with sessionNonNull := true, knownHostsNonNull := true }
        SshState.HandShake)

/-- The `FreeSession` case (sshclient.cpp lines 617-638): free the
known-hosts store if present, then `libssh2_session_free` (EAGAIN
returns, with the known-hosts store already released); afterwards the
handle is nulled, `sshDisconnected` is emitted and the state returns to
`Unconnected`. -/
def stepFreeSession (o : Oracle) (s : ClientState) : StepResult :=
  let s1 := if s.knownHostsNonNull then { s with knownHostsNonNull := false } else s
  if s1.sessionNonNull then
    match o.freeRes with
    | LibRes.eagain => StepResult.next s1
    | _ =>
      StepResult.next
        (setSshState { s1 with sessionNonNull := false } SshState.Unconnected)
  else
    StepResult.next
      (setSshState { s1 with sessionNonNull := false } SshState.Unconnected)

/-- The `DisconnectingSession` case (sshclient.cpp lines 599-615):
`libssh2_session_disconnect_ex` EAGAIN returns unchanged; otherwise if
the socket is still connected it is asked to disconnect, else the state
is set to `FreeSession`; both branches then fall through into the
`FreeSession` case body. -/
def stepDisconnectingSession (o : Oracle) (s : ClientState) : StepResult :=
  match o.disconnectRes with
  | LibRes.eagain => StepResult.next s
  | _ =>
    if o.socketConnected then stepFreeSession o s
    else stepFreeSession o (setSshState s SshState.FreeSession)

/-- `SshClient::_ssh_processEvent` (sshclient.cpp lines 373-648): one
pass of the session state machine, dispatching on the current state;
`fuel` bounds the authentication while-loop. -/
def ssh_processEvent (o : Oracle) (fuel : Nat) (s : ClientState) : StepResult :=
  match s.sshState with
  | SshState.Unconnected => StepResult.next s
  | SshState.SocketConnection =>
    StepResult.next
      (setSshState { s with connTimeoutActive := true }
        SshState.WaitingSocketConnection)
  | SshState.WaitingSocketConnection => StepResult.next s
  | SshState.Initialize => stepInitialize o fuel s
  | SshState.HandShake => stepHandShake o fuel s
  | SshState.GetAuthenticationMethodes => stepGetAuthenticationMethodes o fuel s
  | SshState.Authentication => stepAuthentication o fuel s
  | SshState.Ready => stepReady o s
  | SshState.DisconnectingChannel =>
    if s.channels.length > 0 then StepResult.next s
    else StepResult.next (setSshState s SshState.DisconnectingSession)
  | SshState.DisconnectingSession => stepDisconnectingSession o s
  | SshState.FreeSession => stepFreeSession o s
  | SshState.Error => StepResult.next s

/-- `SshClient::_connection_socketConnected` (sshclient.cpp lines
348-364). -/
def connection_socketConnected (s : ClientState) : ClientState :=
  if s.sshState = SshState.WaitingSocketConnection then
    setSshState s SshState.Initialize
  else
    setSshState s SshState.Error

/-- `SshClient::_connection_socketDisconnected` (sshclient.cpp lines
366-371): unconditionally moves to `FreeSession` and requeues the
state machine. -/
def connection_socketDisconnected (s : ClientState) : ClientState :=
  setSshState s SshState.FreeSession

/-- `SshClient::_connection_socketError` (sshclient.cpp lines 341-346). -/
def connection_socketError (s : ClientState) : ClientState :=
  setSshState s SshState.Error

/-- `SshClient::_connection_socketTimeout` (sshclient.cpp lines
333-339): disconnect the socket (external) and set `Error`. -/
def connection_socketTimeout (s : ClientState) : ClientState :=
  setSshState s SshState.Error

/-- A concrete oracle used to instantiate theorems on concrete runs. -/
def oracle0 : Oracle :=
  { sessionInitOk := true
    handshakeRes := LibRes.ok
    fingerprintOk := true
    userauthList := none
    userauthListLastErr := LibRes.eagain
    authRes := fun _ => LibRes.ok
    authenticated := true
    disconnectRes := LibRes.ok
    socketConnected := false
    freeRes := LibRes.ok
    now := 0 }

/-- The arbiter never reaches a state that is unlocked yet still
records an owner: both `releaseChannelCreationMutex` (on the owner's
call) and the initial state clear owner and lock together, and
`takeChannelCreationMutex` sets them together. -/
theorem arb_unlocked_no_owner (ops : List ArbOp) (a : Arbiter)
    (h : a.locked = false → a.owner = none) :
    (ops.foldl arbStep a).locked = false → (ops.foldl arbStep a).owner = none := by
  induction ops generalizing a with
  | nil => exact h
  | cons op rest ih =>
    refine ih (arbStep a op) ?_
    cases op with
    | take i =>
      simp only [arbStep, takeChannelCreationMutex]
      split
      · exact h
      · intro hc; simp at hc
    | release i =>
      simp only [arbStep, releaseChannelCreationMutex]
      split
      · intro _; rfl
      · exact h

/-- C5: along every call sequence from the initial arbiter state, at
most one identity is recorded as owner, and an unlocked arbiter records
no owner; `takeChannelCreationMutex identifier` succeeds exactly when
the lock is free or `identifier` is already the recorded owner, in
which case `identifier` ends up the owner of the held lock, and a
failed acquire changes nothing; `releaseChannelCreationMutex` by a
non-owner leaves the state unchanged and reports the caller error. -/
theorem c5_arbiter_contract :
    (∀ (ops : List ArbOp) (i j : Nat),
      ((ops.foldl arbStep arbiter0).owner = some i →
        (ops.foldl arbStep arbiter0).owner = some j → i = j)
      ∧ ((ops.foldl arbStep arbiter0).locked = false →
        (ops.foldl arbStep arbiter0).owner = none))
    ∧ (∀ (a : Arbiter) (i : Nat),
      ((takeChannelCreationMutex a i).1 = true
          ↔ (a.locked = false ∨ a.owner = some i))
      ∧ ((takeChannelCreationMutex a i).1 = true →
          (takeChannelCreationMutex a i).2 = { locked := true, owner := some i })
      ∧ ((takeChannelCreationMutex a i).1 = false →
          (takeChannelCreationMutex a i).2 = a))
    ∧ (∀ (a : Arbiter) (A B : Nat), a.owner = some A → A ≠ B →
        releaseChannelCreationMutex a B = (a, true)) := by
  refine ⟨fun ops i j => ⟨fun hi hj => ?_, ?_⟩, fun a i => ⟨?_, ?_, ?_⟩,
    fun a A B hA hAB => ?_⟩
  · rw [hi] at hj; exact Option.some.inj hj
  · exact arb_unlocked_no_owner ops arbiter0 (fun _ => rfl)
  · constructor
    · intro h
      by_contra hc
      push_neg at hc
      obtain ⟨h1, h2⟩ := hc
      simp only [takeChannelCreationMutex] at h
      rw [if_pos ⟨by revert h1; cases a.locked <;> simp, h2⟩] at h
      simp at h
    · intro h
      simp only [takeChannelCreationMutex]
      split
      · rename_i hc
        rcases h with h | h
        · rw [h] at hc; simp at hc
        · exact absurd h hc.2
      · rfl
  · intro h
    simp only [takeChannelCreationMutex] at h ⊢
    split
    · rename_i hc; rw [if_pos hc] at h; simp at h
    · rename_i hc; rfl
  · intro h
    simp only [takeChannelCreationMutex] at h ⊢
    by_cases hc : a.locked = true ∧ a.owner ≠ some i
    · rw [if_pos hc]
    · rw [if_neg hc] at h; simp at h
  · simp only [releaseChannelCreationMutex]
    rw [if_neg]
    rw [hA]
    intro hc
    exact hAB (Option.some.inj hc.symm).symm

/-- Closed instance of the arbiter contract: a fresh acquire by 1
succeeds, re-acquire by 1 succeeds, acquire by 2 then fails and changes
nothing, and release by 2 while 1 owns is rejected unchanged. -/
theorem c5_arbiter_contract_witness :
    (([ArbOp.take 1].foldl arbStep arbiter0).locked = false →
      ([ArbOp.take 1].foldl arbStep arbiter0).owner = none)
    ∧ ((takeChannelCreationMutex { locked := true, owner := some 1 } 1).1 = true
        ↔ ({ locked := true, owner := some 1 } : Arbiter).locked = false
          ∨ ({ locked := true, owner := some 1 } : Arbiter).owner = some 1)
    ∧ releaseChannelCreationMutex { locked := true, owner := some 1 } 2
        = ({ locked := true, owner := some 1 }, true) :=
  ⟨(c5_arbiter_contract.1 [ArbOp.take 1] 0 0).2,
    (c5_arbiter_contract.2.1 { locked := true, owner := some 1 } 1).1,
    c5_arbiter_contract.2.2 { locked := true, owner := some 1 } 1 2 rfl
      (by decide)⟩

/-- C6: `disconnectFromHost` is the identity when the state is already
`Unconnected`; otherwise it moves straight to `DisconnectingSession`
when no channel is registered and to `DisconnectingChannel` when at
least one is, touching nothing but the state field. -/
theorem c6_disconnectFromHost_transitions (s : ClientState) :
    (s.sshState = SshState.Unconnected → disconnectFromHost s = s)
    ∧ (s.sshState ≠ SshState.Unconnected → s.channels = [] →
        disconnectFromHost s = setSshState s SshState.DisconnectingSession)
    ∧ (s.sshState ≠ SshState.Unconnected → s.channels ≠ [] →
        disconnectFromHost s = setSshState s SshState.DisconnectingChannel) := by
  refine ⟨fun h => ?_, fun h hc => ?_, fun h hc => ?_⟩
  · simp [disconnectFromHost, h]
  · simp [disconnectFromHost, h, hc]
  · simp [disconnectFromHost, h, hc, List.length_eq_zero]

/-- Closed instance of the `disconnectFromHost` transitions: identity at
`Unconnected`; from `Ready` with no channels, `DisconnectingSession`;
from `Ready` with channel 7 registered, `DisconnectingChannel`. -/
theorem c6_disconnectFromHost_transitions_witness :
    disconnectFromHost client0 = client0
    ∧ disconnectFromHost { client0 with sshState := SshState.Ready }
        = setSshState { client0 with sshState := SshState.Ready }
          SshState.DisconnectingSession
    ∧ disconnectFromHost { client0 with sshState := SshState.Ready, channels := [7] }
        = setSshState { client0 with sshState := SshState.Ready, channels := [7] }
          SshState.DisconnectingChannel :=
  ⟨(c6_disconnectFromHost_transitions client0).1 rfl,
    (c6_disconnectFromHost_transitions { client0 with sshState := SshState.Ready }).2.1
      (by decide) rfl,
    (c6_disconnectFromHost_transitions
        { client0 with sshState := SshState.Ready, channels := [7] }).2.2
      (by decide) (by decide)⟩

/-- C10: for Rsa and Dss keys, `addKnownHost` returns the raw library
result converted to bool — `false` exactly when `libssh2_knownhost_add`
returned 0 (success) — which is the opposite polarity of
`saveKnownHosts`, which returns `true` exactly when its library call
returned 0. -/
theorem c10_addKnownHost_polarity (hostname file : String) (key : SshKey)
    (libRes : Int)
    (hk : key.type = SshKeyType.Rsa ∨ key.type = SshKeyType.Dss) :
    addKnownHost hostname key libRes = (libRes != 0)
    ∧ saveKnownHosts file libRes = (libRes == 0)
    ∧ addKnownHost hostname key libRes = !(saveKnownHosts file libRes) := by
  have h1 : addKnownHost hostname key libRes = (libRes != 0) := by
    rcases hk with h | h <;> simp [addKnownHost, h]
  refine ⟨h1, rfl, ?_⟩
  rw [h1]
  rfl

/-- Closed instance of the polarity theorem at an Rsa key and library
result -5 (a failed insert): `addKnownHost` reports `true`,
`saveKnownHosts` reports `false`. -/
theorem c10_addKnownHost_polarity_witness :
    (({ type := SshKeyType.Rsa, key := "k" } : SshKey).type = SshKeyType.Rsa
      ∨ ({ type := SshKeyType.Rsa, key := "k" } : SshKey).type = SshKeyType.Dss)
    ∧ addKnownHost "h" { type := SshKeyType.Rsa, key := "k" } (-5) = ((-5 : Int) != 0)
    ∧ saveKnownHosts "f" (-5) = ((-5 : Int) == 0) :=
  ⟨Or.inl rfl,
    (c10_addKnownHost_polarity "h" "f" { type := SshKeyType.Rsa, key := "k" } (-5)
      (Or.inl rfl)).1,
    (c10_addKnownHost_polarity "h" "f" { type := SshKeyType.Rsa, key := "k" } (-5)
      (Or.inl rfl)).2.1⟩

/-- C4: with a live session and a successful probe send, the keepalive
monitor disconnects exactly when the elapsed whole seconds since the
last proof-of-live exceed `6 * interval` (`MAX_LOST_KEEP_ALIVE = 6`),
and otherwise reschedules the timer at `max (interval - 1) 2` seconds;
in particular an elapsed count of `6i + 1` seconds disconnects,
`6i - 1` seconds reschedules, and `interval ≤ 3` yields the 2-second
floor. -/
theorem c4_keepalive_threshold (i now last : Int) (hi : 0 < i) :
    (sendKeepAlive true false i now last = KeepAliveAction.disconnectLost
      ↔ Int.tdiv (now - last) 1000 > 6 * i)
    ∧ (Int.tdiv (now - last) 1000 = 6 * i + 1 →
      sendKeepAlive true false i now last = KeepAliveAction.disconnectLost)
    ∧ (Int.tdiv (now - last) 1000 = 6 * i - 1 →
      sendKeepAlive true false i now last
        = KeepAliveAction.reschedule (max (i - 1) 2 * 1000))
    ∧ (¬ Int.tdiv (now - last) 1000 > 6 * i →
      sendKeepAlive true false i now last
        = KeepAliveAction.reschedule (max (i - 1) 2 * 1000))
    ∧ (i ≤ 3 → ¬ Int.tdiv (now - last) 1000 > 6 * i →
      sendKeepAlive true false i now last = KeepAliveAction.reschedule 2000) := by
  have hmax : (if i - 1 < 2 then (2 : Int) else i - 1) = max (i - 1) 2 := by
    by_cases h : i - 1 < 2
    · rw [if_pos h, max_eq_right (le_of_lt h)]
    · rw [if_neg h, max_eq_left (le_of_not_lt h)]
  have hre : ¬ Int.tdiv (now - last) 1000 > 6 * i →
      sendKeepAlive true false i now last
        = KeepAliveAction.reschedule (max (i - 1) 2 * 1000) := by
    intro h
    simp only [sendKeepAlive, if_neg h, hmax]
    simp
  refine ⟨⟨fun h => ?_, fun h => ?_⟩, fun h => ?_, fun h => ?_, hre, fun h3 h => ?_⟩
  · by_contra hc
    rw [hre hc] at h
    exact KeepAliveAction.noConfusion h
  · simp [sendKeepAlive, if_pos h]
  · have : Int.tdiv (now - last) 1000 > 6 * i := by omega
    simp [sendKeepAlive, if_pos this]
  · apply hre
    omega
  · rw [hre h]
    have : max (i - 1) 2 = 2 := max_eq_right (by omega)
    rw [this]
    norm_num

/-- Closed instance of the keepalive threshold: interval 2 seconds,
elapsed 13001 ms (13 whole seconds > 12) disconnects; elapsed 11000 ms
(11 whole seconds) reschedules at the 2-second floor since 2 ≤ 3. -/
theorem c4_keepalive_threshold_witness :
    (0 : Int) < 2
    ∧ sendKeepAlive true false 2 13001 0 = KeepAliveAction.disconnectLost
    ∧ Int.tdiv ((11000 : Int) - 0) 1000 = 6 * 2 - 1
    ∧ sendKeepAlive true false 2 11000 0
        = KeepAliveAction.reschedule (max ((2 : Int) - 1) 2 * 1000)
    ∧ (2 : Int) ≤ 3
    ∧ sendKeepAlive true false 2 11000 0 = KeepAliveAction.reschedule 2000 :=
  ⟨by decide,
    (c4_keepalive_threshold 2 13001 0 (by decide)).1.2 (by decide),
    by decide,
    (c4_keepalive_threshold 2 11000 0 (by decide)).2.2.1 (by decide),
    by decide,
    (c4_keepalive_threshold 2 11000 0 (by decide)).2.2.2.2 (by decide) (by decide)⟩

/-- C3 counterexample: the "not-accepted indication" is not distinct
from the accepted one — `connectToHost` returns the same int `0` both
when it is rejected (state `Ready`, parameters left untouched) and when
it is accepted (state `Unconnected`). -/
theorem c3_return_not_distinct :
    (connectToHost { client0 with sshState := SshState.Ready } "u" "h" 22 []).1
        = (connectToHost client0 "u" "h" 22 []).1
    ∧ (connectToHost { client0 with sshState := SshState.Ready } "u" "h" 22 []).2
        = { client0 with sshState := SshState.Ready }
    ∧ (connectToHost client0 "u" "h" 22 []).2.sshState
        = SshState.SocketConnection := by
  refine ⟨rfl, ?_, rfl⟩
  simp [connectToHost, setSshState]

/-- C3 amended: `connectToHost` is rejected whenever the state is not
`Unconnected`, leaving the whole client state (hostname, port,
username, method list, session state) unchanged — but the returned
indication is the int `0` on both the rejected and the accepted path
(rejection is only signalled by a warning log); when the state is
`Unconnected` the parameters are stored and the state moves to
`SocketConnection`. -/
theorem c3_connectToHost_amended (s : ClientState) (user host : String)
    (port : Nat) (methodes : List String) :
    (s.sshState ≠ SshState.Unconnected →
      connectToHost s user host port methodes = (0, s))
    ∧ (s.sshState = SshState.Unconnected →
      connectToHost s user host port methodes
        = (0, { s with authenticationMethodes := methodes
                       hostname := host
                       port := port
                       username := user
                       sshState := SshState.SocketConnection })) := by
  refine ⟨fun h => ?_, fun h => ?_⟩
  · simp [connectToHost, h]
  · simp [connectToHost, h, setSshState]

/-- Closed instance of the amended connect contract: a client in
`Ready` rejects the call unchanged with return 0; the fresh client
accepts it, stores the parameters and moves to `SocketConnection`. -/
theorem c3_connectToHost_amended_witness :
    connectToHost { client0 with sshState := SshState.Ready } "u" "h" 22 []
        = (0, { client0 with sshState := SshState.Ready })
    ∧ connectToHost client0 "u" "h" 22 ["password"]
        = (0, { client0 with authenticationMethodes := ["password"]
                             hostname := "h"
                             port := 22
                             username := "u"
                             sshState := SshState.SocketConnection }) :=
  ⟨(c3_connectToHost_amended { client0 with sshState := SshState.Ready }
      "u" "h" 22 []).1 (by decide),
    (c3_connectToHost_amended client0 "u" "h" 22 ["password"]).2 rfl⟩

/-- C8 counterexample: the state machine in `Error` is not inert under
all transport notifications — the transport "disconnected" notification
(`_connection_socketDisconnected`) moves `Error` to `FreeSession`
without any `connectToHost` call. -/
theorem c8_error_left_on_disconnect :
    (connection_socketDisconnected { client0 with sshState := SshState.Error }).sshState
        = SshState.FreeSession
    ∧ SshState.FreeSession ≠ SshState.Error := by
  exact ⟨rfl, by decide⟩

/-- C8 amended: `Error` is preserved by every internal
`_ssh_processEvent` pass and by the connected / socket-error / timeout
notifications, but the transport "disconnected" notification moves the
state from `Error` to `FreeSession` (starting resource cleanup), so
`Error` can be left without a new `connectToHost` call. -/
theorem c8_error_inert_amended (s : ClientState) (o : Oracle) (fuel : Nat)
    (h : s.sshState = SshState.Error) :
    ssh_processEvent o fuel s = StepResult.next s
    ∧ (connection_socketConnected s).sshState = SshState.Error
    ∧ (connection_socketError s).sshState = SshState.Error
    ∧ (connection_socketTimeout s).sshState = SshState.Error
    ∧ (connection_socketDisconnected s).sshState = SshState.FreeSession := by
  refine ⟨?_, ?_, rfl, rfl, rfl⟩
  · simp [ssh_processEvent, h]
  · simp [connection_socketConnected, setSshState, h]

/-- Closed instance of the amended Error behaviour at the concrete
Error state and the concrete oracle. -/
theorem c8_error_inert_amended_witness :
    ({ client0 with sshState := SshState.Error } : ClientState).sshState
        = SshState.Error
    ∧ ssh_processEvent oracle0 1 { client0 with sshState := SshState.Error }
        = StepResult.next { client0 with sshState := SshState.Error }
    ∧ (connection_socketDisconnected
        { client0 with sshState := SshState.Error }).sshState
        = SshState.FreeSession :=
  ⟨rfl,
    (c8_error_inert_amended { client0 with sshState := SshState.Error } oracle0 1
      rfl).1,
    (c8_error_inert_amended { client0 with sshState := SshState.Error } oracle0 1
      rfl).2.2.2.2⟩

/-- C9: in the Authentication step, when the sole remaining candidate
is "publickey" and the publickey attempt fails outright (negative,
non-EAGAIN), the candidate is removed and the same loop iteration
re-reads `first()` on the now-empty list: the pass ends in the
undefined-behaviour outcome of the embedding. -/
theorem c9_empty_first_reachable (o : Oracle) (s : ClientState) (fuel : Nat)
    (hst : s.sshState = SshState.Authentication)
    (hl : s.authenticationMethodes = ["publickey"])
    (hr : o.authRes 0 = LibRes.fail) :
    ssh_processEvent o (fuel + 1) s = StepResult.ub s := by
  simp [ssh_processEvent, hst, stepAuthentication, hl, authLoop, hr]

/-- Closed instance of the reachable empty-list access: the concrete
client in `Authentication` holding only "publickey", against an oracle
whose every authentication call fails. -/
theorem c9_empty_first_reachable_witness :
    ({ client0 with sshState := SshState.Authentication
                    authenticationMethodes := ["publickey"] } : ClientState).sshState
        = SshState.Authentication
    ∧ ({ oracle0 with authRes := fun _ => LibRes.fail } : Oracle).authRes 0
        = LibRes.fail
    ∧ ssh_processEvent { oracle0 with authRes := fun _ => LibRes.fail } 1
        { client0 with sshState := SshState.Authentication
                       authenticationMethodes := ["publickey"] }
        = StepResult.ub
          { client0 with sshState := SshState.Authentication
                         authenticationMethodes := ["publickey"] } :=
  ⟨rfl, rfl,
    c9_empty_first_reachable { oracle0 with authRes := fun _ => LibRes.fail }
      { client0 with sshState := SshState.Authentication
                     authenticationMethodes := ["publickey"] }
      0 rfl rfl rfl⟩

/-- An authentication candidate list headed by a method that is neither
"publickey" nor "password" makes the while-loop body a no-op: the list
never shrinks and the loop never exits, for any fuel. -/
theorem authLoop_unrecognized_spins (o : Oracle) (fuel k : Nat) :
    authLoop o fuel ["keyboard-interactive"] k
      = AuthOutcome.outOfFuel ["keyboard-interactive"] := by
  induction fuel generalizing k with
  | zero => rfl
  | succ n ih =>
    simp only [authLoop]
    rw [if_neg (by decide), if_neg (by decide)]
    exact ih k

/-- C2: the Authentication step does not terminate on every candidate
list — with the list `["keyboard-interactive"]` (a method that is
neither "publickey" nor "password") the while-loop spins forever
without skipping or removing the method, modelled as the pass diverging
for every fuel bound. -/
theorem c2_unrecognized_method_diverges (o : Oracle) (fuel : Nat) :
    ssh_processEvent o fuel
        { client0 with sshState := SshState.Authentication
                       authenticationMethodes := ["keyboard-interactive"] }
      = StepResult.diverge
        { client0 with sshState := SshState.Authentication
                       authenticationMethodes := ["keyboard-interactive"] } := by
  simp [ssh_processEvent, stepAuthentication, authLoop_unrecognized_spins]

/-- Draining a `DisconnectingChannel` client by unregistering its
channels in any order: each proper step keeps `DisconnectingChannel`,
and the step that empties the registry stops the keepalive timer and
moves to `DisconnectingSession`. -/
theorem unregister_perm_drain (order : List Nat) :
    ∀ s : ClientState, order.Perm s.channels →
      s.sshState = SshState.DisconnectingChannel → order ≠ [] →
      (order.foldl unregisterChannel s).sshState = SshState.DisconnectingSession
      ∧ (order.foldl unregisterChannel s).channels = []
      ∧ (order.foldl unregisterChannel s).keepaliveActive = false := by
  induction order with
  | nil => intro s _ _ hne; exact absurd rfl hne
  | cons a rest ih =>
    intro s hp hst _
    have hmem := (List.cons_perm_iff_perm_erase.mp hp).2
    cases hre : rest with
    | nil =>
      subst hre
      have hnil : s.channels.erase a = [] := hmem.symm.eq_nil
      have hstep : unregisterChannel s a
          = setSshState
              { s with channels := s.channels.erase a, keepaliveActive := false }
              SshState.DisconnectingSession := by
        simp [unregisterChannel, hst, hnil]
      simp [List.foldl, hstep, setSshState, hnil]
    | cons b rest2 =>
      subst hre
      have hne2 : s.channels.erase a ≠ [] := by
        intro hc
        rw [hc] at hmem
        exact List.noConfusion hmem.eq_nil
      have hstep : unregisterChannel s a
          = { s with channels := s.channels.erase a } := by
        simp [unregisterChannel, hst, hne2]
      rw [List.foldl_cons, hstep]
      exact ih { s with channels := s.channels.erase a } hmem hst
        (List.cons_ne_nil b rest2)

/-- C7: unregistering while the session is in `DisconnectingChannel`
leaves the state there as long as channels remain; the call that
empties the registry stops the keepalive timer and moves to
`DisconnectingSession`; in any other state unregistering only removes
the channel; and for every nonempty registry, draining it in any order
ends in `DisconnectingSession` with the registry empty and keepalive
stopped. -/
theorem c7_unregisterChannel_teardown (s : ClientState) (ch : Nat) :
    (s.sshState = SshState.DisconnectingChannel → s.channels.erase ch ≠ [] →
      unregisterChannel s ch = { s with channels := s.channels.erase ch })
    ∧ (s.sshState = SshState.DisconnectingChannel → s.channels.erase ch = [] →
      unregisterChannel s ch
        = { s with channels := [], keepaliveActive := false
                   sshState := SshState.DisconnectingSession })
    ∧ (s.sshState ≠ SshState.DisconnectingChannel →
      unregisterChannel s ch = { s with channels := s.channels.erase ch })
    ∧ (∀ order : List Nat, order.Perm s.channels →
        s.sshState = SshState.DisconnectingChannel → order ≠ [] →
        (order.foldl unregisterChannel s).sshState = SshState.DisconnectingSession
        ∧ (order.foldl unregisterChannel s).channels = []
        ∧ (order.foldl unregisterChannel s).keepaliveActive = false) := by
  refine ⟨fun hst hne => ?_, fun hst hnil => ?_, fun hst => ?_,
    fun order hp hst hne => unregister_perm_drain order s hp hst hne⟩
  · simp [unregisterChannel, hst, hne]
  · simp [unregisterChannel, hst, hnil, setSshState]
  · simp [unregisterChannel, hst]

/-- Closed instance of the teardown contract: a client in
`DisconnectingChannel` with channels 4 and 5 and a running keepalive
timer, drained in the reverse registration order, ends in
`DisconnectingSession` with no channels and the keepalive stopped. -/
theorem c7_unregisterChannel_teardown_witness :
    ([5, 4].Perm
      ({ client0 with sshState := SshState.DisconnectingChannel
                      channels := [4, 5]
                      keepaliveActive := true } : ClientState).channels)
    ∧ ({ client0 with sshState := SshState.DisconnectingChannel
                      channels := [4, 5]
                      keepaliveActive := true } : ClientState).sshState
        = SshState.DisconnectingChannel
    ∧ ([5, 4] : List Nat) ≠ []
    ∧ ([5, 4].foldl unregisterChannel
        { client0 with sshState := SshState.DisconnectingChannel
                       channels := [4, 5]
                       keepaliveActive := true }).sshState
        = SshState.DisconnectingSession
    ∧ ([5, 4].foldl unregisterChannel
        { client0 with sshState := SshState.DisconnectingChannel
                       channels := [4, 5]
                       keepaliveActive := true }).keepaliveActive = false :=
  ⟨by decide, rfl, by decide,
    ((c7_unregisterChannel_teardown
        { client0 with sshState := SshState.DisconnectingChannel
                       channels := [4, 5]
                       keepaliveActive := true } 0).2.2.2
      [5, 4] (by decide) rfl (by decide)).1,
    ((c7_unregisterChannel_teardown
        { client0 with sshState := SshState.DisconnectingChannel
                       channels := [4, 5]
                       keepaliveActive := true } 0).2.2.2
      [5, 4] (by decide) rfl (by decide)).2.2⟩

/-- A pass of `_ssh_processEvent` that returned on would-block: it
produced a successor state with the session state and the candidate
list unchanged, and re-running the pass later from the returned state
behaves exactly like running it from the original state, for every
oracle and fuel (idempotent resumption). -/
def blockedPassFrame (o : Oracle) (fuel : Nat) (s : ClientState) : Prop :=
  ∃ s2, ssh_processEvent o fuel s = StepResult.next s2
    ∧ s2.sshState = s.sshState
    ∧ s2.authenticationMethodes = s.authenticationMethodes
    ∧ ∀ (o2 : Oracle) (fuel2 : Nat),
        ssh_processEvent o2 fuel2 s2 = ssh_processEvent o2 fuel2 s

/-- C1: for each state whose step makes a protocol-engine call — the
handshake in `HandShake`, the authentication attempt for the current
head candidate in `Authentication`, the session disconnect in
`DisconnectingSession`, the session free in `FreeSession` — if that
call reports EAGAIN, the pass returns with the session state and the
authentication candidate list unchanged, and re-running the pass later
with the same eventual underlying results reaches the same final state
as an uninterrupted run. -/
theorem c1_wouldBlock_preserves_state (s : ClientState) (o : Oracle) (fuel : Nat)
    (hf : 0 < fuel) :
    (s.sshState = SshState.HandShake → o.handshakeRes = LibRes.eagain →
      blockedPassFrame o fuel s)
    ∧ (s.sshState = SshState.Authentication →
      (∃ m rest, s.authenticationMethodes = m :: rest
        ∧ (m = "publickey" ∨ m = "password")) →
      o.authRes 0 = LibRes.eagain → blockedPassFrame o fuel s)
    ∧ (s.sshState = SshState.DisconnectingSession →
      o.disconnectRes = LibRes.eagain → blockedPassFrame o fuel s)
    ∧ (s.sshState = SshState.FreeSession → s.sessionNonNull = true →
      o.freeRes = LibRes.eagain → blockedPassFrame o fuel s) := by
  refine ⟨fun hss hr => ?_, fun hss hrec hr => ?_, fun hss hr => ?_,
    fun hss hsn hr => ?_⟩
  · refine ⟨s, ?_, rfl, rfl, fun o2 f2 => rfl⟩
    simp [ssh_processEvent, hss, stepHandShake, hr]
  · obtain ⟨m, rest, hl, hm⟩ := hrec
    cases fuel with
    | zero => exact absurd hf (by omega)
    | succ n =>
      refine ⟨s, ?_, rfl, rfl, fun o2 f2 => rfl⟩
      rcases hm with rfl | rfl
      · have hloop : authLoop o (n + 1) s.authenticationMethodes 0
            = AuthOutcome.suspend s.authenticationMethodes := by
          rw [hl]
          simp [authLoop, hr]
        simp [ssh_processEvent, hss, stepAuthentication, hloop]
        rw [← hss]
      · have hloop : authLoop o (n + 1) s.authenticationMethodes 0
            = AuthOutcome.suspend s.authenticationMethodes := by
          rw [hl]
          simp [authLoop, hr]
        simp [ssh_processEvent, hss, stepAuthentication, hloop]
        rw [← hss]
  · refine ⟨s, ?_, rfl, rfl, fun o2 f2 => rfl⟩
    simp [ssh_processEvent, hss, stepDisconnectingSession, hr]
  · by_cases hkh : s.knownHostsNonNull = true
    · refine ⟨{ s with knownHostsNonNull := false }, ?_, rfl, rfl, fun o2 f2 => ?_⟩
      · simp [ssh_processEvent, hss, stepFreeSession, hkh, hsn, hr]
      · simp [ssh_processEvent, hss, stepFreeSession, hkh, hsn]
    · have hkh2 : s.knownHostsNonNull = false := by
        revert hkh; cases s.knownHostsNonNull <;> simp
      refine ⟨s, ?_, rfl, rfl, fun o2 f2 => rfl⟩
      simp [ssh_processEvent, hss, stepFreeSession, hkh2, hsn, hr]

/-- Closed instance of the would-block frame property: a client blocked
in `HandShake`, and a client with a live engine handle blocked on the
final `libssh2_session_free`, both return with state and candidate list
unchanged. -/
theorem c1_wouldBlock_preserves_state_witness :
    0 < 1
    ∧ ({ client0 with sshState := SshState.HandShake } : ClientState).sshState
        = SshState.HandShake
    ∧ ({ oracle0 with handshakeRes := LibRes.eagain } : Oracle).handshakeRes
        = LibRes.eagain
    ∧ blockedPassFrame { oracle0 with handshakeRes := LibRes.eagain } 1
        { client0 with sshState := SshState.HandShake }
    ∧ ({ client0 with sshState := SshState.FreeSession
                      sessionNonNull := true
                      knownHostsNonNull := true } : ClientState).sessionNonNull
        = true
    ∧ blockedPassFrame { oracle0 with freeRes := LibRes.eagain } 1
        { client0 with sshState := SshState.FreeSession
                       sessionNonNull := true
                       knownHostsNonNull := true } :=
  ⟨by decide, rfl, rfl,
    (c1_wouldBlock_preserves_state { client0 with sshState := SshState.HandShake }
      { oracle0 with handshakeRes := LibRes.eagain } 1 (by decide)).1 rfl rfl,
    rfl,
    (c1_wouldBlock_preserves_state
      { client0 with sshState := SshState.FreeSession
                     sessionNonNull := true
                     knownHostsNonNull := true }
      { oracle0 with freeRes := LibRes.eagain } 1 (by decide)).2.2.2 rfl rfl rfl⟩

end QtSsh
